import Mathlib

/-!
# Verification of the Giffer repository

A shallow embedding of `src/justprogram/src/Giffer.jsx` and
`src/justprogram/src/App.jsx`.

Conventions of the embedding:
* A JavaScript field that may hold a string or be `undefined` is modelled as
  `Option String` (`none` = `undefined`/absent).
* The component state of `Giffer` (the six `useState` cells `gifs`, `idx`,
  `liked`, `disliked`, `loading`, `error`) is the structure `GifferState`.
* The asynchronous fetch started by the `useEffect` body is split into its
  synchronous start (`effectRun`) and its resolution (`fetchDeckResolve`),
  which receives the value of the stale-closure flag `ignore` as read at the
  guards, together with the network outcome (`FetchEvent`).
* The cleanup/supersession discipline (`let ignore = false; return () => {
  ignore = true }` re-run on every `apiKey` change, torn down on unmount) is
  modelled by `World`: each effect run gets a fresh generation number; a
  resolution carries the generation of the run that started it, and its
  `ignore` flag is true exactly when that generation is no longer current or
  the component is no longer mounted.
-/

/-- The normalized display model built by `fetchDeck`:
`{ id: d.id, title: d.title || "Untitled", preview: ..., url: d.url }`.
`title` is always a string (the `|| "Untitled"` fallback), the other three
fields are copied as-is and may be `undefined`. -/
structure GifItem where
  id : Option String
  title : String
  preview : Option String
  url : Option String
deriving Repr, DecidableEq

/-- One nested image variant of a raw Giphy record: `images.<variant>` with an
optional `url` field. -/
structure ImageVariant where
  url : Option String
deriving Repr, DecidableEq

/-- The `images` object of a raw record; each of the three variants read by the
code may be absent. -/
structure RawImages where
  downsized_medium : Option ImageVariant
  original : Option ImageVariant
  downsized : Option ImageVariant
deriving Repr, DecidableEq

/-- One raw record of the response's `data` array, restricted to the fields the
code reads: `id`, `title`, `images`, `url`. -/
structure RawRecord where
  id : Option String
  title : Option String
  images : Option RawImages
  url : Option String
deriving Repr, DecidableEq

/-- A parsed response body: a JSON object whose `data` field, when present,
holds an array of records (`json?.data`). -/
structure ResponseBody where
  data : Option (List RawRecord)
deriving Repr, DecidableEq

/-- JS truthiness of a string-or-undefined value: `undefined` and `""` are
falsy, every other string is truthy. -/
def truthyStr : Option String → Bool
  | some s => s != ""
  | none => false

/-- JS `a || b` restricted to string-or-undefined values: returns `a` when `a`
is truthy, otherwise returns `b` (whatever `b` is, truthy or not). -/
def jsOr (a b : Option String) : Option String :=
  if truthyStr a then a else b

/-- `d.images?.downsized_medium?.url` -/
def dmUrl (d : RawRecord) : Option String :=
  (d.images.bind fun i => i.downsized_medium).bind fun v => v.url

/-- `d.images?.original?.url` -/
def origUrl (d : RawRecord) : Option String :=
  (d.images.bind fun i => i.original).bind fun v => v.url

/-- `d.images?.downsized?.url` -/
def dsUrl (d : RawRecord) : Option String :=
  (d.images.bind fun i => i.downsized).bind fun v => v.url

/-- The mapping applied to each raw record in `fetchDeck`:
`{ id: d.id, title: d.title || "Untitled",
   preview: d.images?.downsized_medium?.url || d.images?.original?.url ||
            d.images?.downsized?.url,
   url: d.url }`. -/
def mapRecord (d : RawRecord) : GifItem :=
  { id := d.id
    title :=
      match d.title with
      | some s => if s != "" then s else "Untitled"
      | none => "Untitled"
    preview := jsOr (dmUrl d) (jsOr (origUrl d) (dsUrl d))
    url := d.url }

/-- `(json?.data || []).map(mapRecord)`: the normalized deck built from a
parsed response body. A missing `data` field yields the empty deck. -/
def normalizeResponse (json : ResponseBody) : List GifItem :=
  (json.data.getD []).map mapRecord

/-- The six `useState` cells of the `Giffer` component. -/
structure GifferState where
  gifs : List GifItem
  idx : Nat
  liked : List GifItem
  disliked : List GifItem
  loading : Bool
  error : String
deriving Repr, DecidableEq

/-- The message of the error thrown on a non-2xx response:
`new Error(\x60HTTP ${res.status}\x60)`. -/
def httpErrorMessage (status : Nat) : String :=
  "HTTP " ++ toString status

/-- How a started fetch resolves: either the network produced a response
(with its `ok` flag, status, and a body that parsed), or an error was thrown
during fetch/parse with the given message. -/
inductive FetchEvent where
  | response (ok : Bool) (status : Nat) (body : ResponseBody)
  | thrown (msg : String)
deriving Repr, DecidableEq

/-- The resolution of one run of `fetchDeck` past its first `await`:
the `try` branch (success setters), the `catch` branch (`setError`), and the
`finally` branch (`setLoading(false)`), each guarded by `if (!ignore)`.
A non-`ok` response throws `HTTP <status>` which the `catch` turns into the
error string. `ignore` is the value of the stale-closure flag at resolution
time. -/
def fetchDeckResolve (ignore : Bool) (ev : FetchEvent) (s : GifferState) : GifferState :=
  let afterTry : GifferState :=
    match ev with
    | .response ok status body =>
        if ok then
          if ignore then s
          else { s with gifs := normalizeResponse body, idx := 0, liked := [], disliked := [] }
        else
          if ignore then s else { s with error := httpErrorMessage status }
    | .thrown msg =>
        if ignore then s else { s with error := msg }
  if ignore then afterTry else { afterTry with loading := false }

/-- The value of the `apiKey` prop: a string, or any non-string JS value. -/
inductive PropValue where
  | str (s : String)
  | nonString
deriving Repr, DecidableEq

/-- The guard `!apiKey || typeof apiKey !== "string"`: true for the empty
string (falsy) and for every non-string value. -/
def endpointInvalid : PropValue → Bool
  | .str s => s == ""
  | .nonString => true

/-- The error message set when the endpoint prop is invalid. -/
def invalidEndpointMsg : String :=
  "Invalid endpoint: Pass a full Giphy URL as the `apiKey` prop."

/-- The synchronous part of the `useEffect` body: validate the endpoint (on
failure set the error and start no fetch), otherwise run `fetchDeck` up to its
first `await` (`setLoading(true); setError("")`). The boolean tells whether a
fetch was started. -/
def effectRun (p : PropValue) (s : GifferState) : GifferState × Bool :=
  if endpointInvalid p then ({ s with error := invalidEndpointMsg }, false)
  else ({ s with loading := true, error := "" }, true)

/-- The component plus the effect-lifecycle bookkeeping: `gen` counts effect
runs (each `apiKey` change re-runs the effect, running the previous run's
cleanup `ignore = true` first), `alive` records whether the component is still
mounted. -/
structure World where
  st : GifferState
  gen : Nat
  alive : Bool
deriving Repr, DecidableEq

/-- The endpoint prop changes: the previous effect run's cleanup flips its
`ignore` flag (its generation stops being current) and the effect body runs
again. -/
def stepPropChange (p : PropValue) (w : World) : World :=
  if w.alive then
    { st := (effectRun p w.st).1, gen := w.gen + 1, alive := true }
  else w

/-- The component unmounts: the pending run's cleanup flips its `ignore` flag
and no further state updates are applied. -/
def stepTeardown (w : World) : World :=
  { w with alive := false }

/-- The fetch started by effect run `g` resolves. Its closed-over `ignore`
flag is true exactly when run `g` is no longer the current one or the
component was torn down. -/
def stepResolve (g : Nat) (ev : FetchEvent) (w : World) : World :=
  { w with st := fetchDeckResolve (!w.alive || g != w.gen) ev w.st }

/-- `handleVote(kind)`: no-op when `current = gifs[idx]` is `undefined`;
otherwise append `current` to `liked` when `kind === "like"`, to `disliked`
for every other `kind`, and advance `idx` by one. -/
def handleVote (kind : String) (s : GifferState) : GifferState :=
  match s.gifs.get? s.idx with
  | none => s
  | some current =>
      let s1 :=
        if kind = "like" then { s with liked := s.liked ++ [current] }
        else { s with disliked := s.disliked ++ [current] }
      { s1 with idx := s1.idx + 1 }

/-- A whole sequence of vote clicks, applied left to right. -/
def applyVotes (kinds : List String) (s : GifferState) : GifferState :=
  kinds.foldl (fun st k => handleVote k st) s

/-- The value held by the `limit` state cell of `App`: the initial render
stores the number `12`; every edit stores `e.target.value`, a raw string. -/
inductive LimitValue where
  | num (n : Int)
  | str (s : String)
deriving Repr, DecidableEq

/-- The two `useState` cells of `App`: `query` and `limit`. -/
structure AppState where
  query : String
  limit : LimitValue
deriving Repr, DecidableEq

/-- `useState("cool")` and `useState(12)`. -/
def initialAppState : AppState :=
  { query := "cool", limit := .num 12 }

/-- One user edit to one of the two inputs; the handler receives
`e.target.value`, always a string. -/
inductive AppEdit where
  | editQuery (raw : String)
  | editLimit (raw : String)
deriving Repr, DecidableEq

/-- `onChange` handlers: `setQuery(e.target.value)` / `setLimit(e.target.value)`. -/
def applyAppEdit (s : AppState) : AppEdit → AppState
  | .editQuery raw => { s with query := raw }
  | .editLimit raw => { s with limit := .str raw }

/-- A whole sequence of user edits, applied left to right. -/
def applyAppEdits (es : List AppEdit) (s : AppState) : AppState :=
  es.foldl applyAppEdit s

/-- Accumulating decimal reading of a character list; `none` as soon as a
non-digit appears. -/
def digitsToNat (cs : List Char) (acc : Nat) : Option Nat :=
  match cs with
  | [] => some acc
  | c :: rest =>
      if c.isDigit then digitsToNat rest (acc * 10 + (c.toNat - 48)) else none

/-- Reading the `limit` cell as the integer it denotes, when it denotes one:
a number directly, a non-empty all-digit string via its decimal value. -/
def limitAsInt : LimitValue → Option Int
  | .num n => some n
  | .str s =>
      match s.data with
      | [] => none
      | c :: cs => (digitsToNat (c :: cs) 0).map fun n => (n : Int)

/-! ## Helper lemmas -/

/-- With `ignore = true` every guard in the resolution is skipped, so the
state is returned untouched. -/
theorem fetchDeckResolve_ignore (ev : FetchEvent) (s : GifferState) :
    fetchDeckResolve true ev s = s := by
  cases ev <;> simp [fetchDeckResolve]

/-! ## Claims -/

/-- Claim C2: after every successful fetch whose resolution is applied
(response ok, body parsed, `ignore` false), the deck is replaced by the
normalized list of that response, the pointer is 0, both vote lists are
empty, and the loading flag clears — regardless of the prior state. -/
theorem fetch_success_resets (s : GifferState) (status : Nat) (body : ResponseBody) :
    fetchDeckResolve false (.response true status body) s =
      { s with gifs := normalizeResponse body, idx := 0, liked := [], disliked := [],
               loading := false } := by
  simp [fetchDeckResolve]

/-- A concrete deck item used by the witnesses. -/
def sampleGif : GifItem :=
  { id := some "g1", title := "cat", preview := some "https://x/p.gif",
    url := some "https://x" }

/-- A concrete component state with a one-item deck, used by the witnesses. -/
def sampleState : GifferState :=
  { gifs := [sampleGif], idx := 0, liked := [], disliked := [],
    loading := false, error := "" }

/-- A concrete world on effect generation 1, used by the witnesses. -/
def sampleWorld : World :=
  { st := sampleState, gen := 1, alive := true }

/-- Claim C1: if the fetch of effect run `g` was superseded (a newer run is
current, `g ≠ w.gen`) or the component was torn down (`w.alive = false`)
before it resolved, its resolution leaves the whole state untouched: deck,
pointer, vote lists, loading flag and error string — on the success path, the
failure path and the finally step alike. -/
theorem stale_resolution_noop (w : World) (g : Nat) (ev : FetchEvent)
    (h : w.alive = false ∨ g ≠ w.gen) : stepResolve g ev w = w := by
  have hig : (!w.alive || g != w.gen) = true := by
    rcases h with h | h
    · simp [h]
    · simp [h]
  simp [stepResolve, hig, fetchDeckResolve_ignore]

/-- Witness for C1: a resolution tagged with stale generation 0 while the
world is on generation 1 changes nothing. -/
theorem stale_resolution_noop_witness :
    (0 ≠ sampleWorld.gen) ∧
      stepResolve 0 (FetchEvent.thrown "boom") sampleWorld = sampleWorld :=
  ⟨by decide,
   stale_resolution_noop sampleWorld 0 (FetchEvent.thrown "boom")
     (Or.inr (by decide))⟩

/-- Claim C7: a failing fetch whose resolution is applied (`ignore` false)
sets the error string to the failure's message (for a non-ok response, the
thrown `HTTP <status>` message — for status 500 a message containing "500"),
clears the loading flag, and leaves deck, pointer and both vote lists exactly
as they were. -/
theorem fetch_failure_sets_error (s : GifferState) (status : Nat)
    (body : ResponseBody) (msg : String) :
    fetchDeckResolve false (.response false status body) s =
        { s with error := httpErrorMessage status, loading := false } ∧
      fetchDeckResolve false (.thrown msg) s =
        { s with error := msg, loading := false } ∧
      ∃ before after, httpErrorMessage 500 = before ++ "500" ++ after := by
  refine ⟨by simp [fetchDeckResolve], by simp [fetchDeckResolve], "HTTP ", "", ?_⟩
  rfl

/-- Claim C3: when a current top-of-deck item exists (`gifs.get? idx = some
g`, i.e. `idx < gifs.length`), a vote advances the pointer by exactly one and
appends that item to `liked` when the kind is "like" and to `disliked`
otherwise; the other list, the deck, the loading flag and the error string
are unchanged. -/
theorem vote_advances (s : GifferState) (kind : String) (g : GifItem)
    (h : s.gifs.get? s.idx = some g) :
    handleVote kind s =
      if kind = "like" then { s with liked := s.liked ++ [g], idx := s.idx + 1 }
      else { s with disliked := s.disliked ++ [g], idx := s.idx + 1 } := by
  unfold handleVote
  rw [h]
  by_cases hk : kind = "like" <;> simp [hk]

/-- Witness for C3: liking the single card of `sampleState` appends it to the
liked list and moves the pointer to 1. -/
theorem vote_advances_witness :
    sampleState.gifs.get? sampleState.idx = some sampleGif ∧
      handleVote "like" sampleState =
        (if "like" = "like"
          then { sampleState with liked := sampleState.liked ++ [sampleGif],
                                  idx := sampleState.idx + 1 }
          else { sampleState with disliked := sampleState.disliked ++ [sampleGif],
                                  idx := sampleState.idx + 1 }) :=
  ⟨by decide, vote_advances sampleState "like" sampleGif (by decide)⟩

/-- Claim C4: when no current item exists (`gifs.length ≤ idx`), a vote of
either kind is a no-op: deck, pointer, vote lists, loading flag and error
string are all unchanged. -/
theorem vote_exhausted_noop (s : GifferState) (kind : String)
    (h : s.gifs.length ≤ s.idx) : handleVote kind s = s := by
  unfold handleVote
  rw [List.get?_eq_none.mpr h]

/-- Witness for C4: voting on an exhausted one-card deck (pointer already 1)
changes nothing. -/
theorem vote_exhausted_noop_witness :
    ({ sampleState with idx := 1 } : GifferState).gifs.length ≤ 1 ∧
      handleVote "dislike" { sampleState with idx := 1 } =
        { sampleState with idx := 1 } :=
  ⟨by decide, vote_exhausted_noop { sampleState with idx := 1 } "dislike" (by decide)⟩

/-- Claim C10: with a current item present, every vote kind other than the
exact string "like" — "Like", misspellings, arbitrary strings — lands in the
dislike branch and appends the current item to `disliked`; no kind is
rejected. -/
theorem vote_default_dislike (s : GifferState) (kind : String) (g : GifItem)
    (hk : kind ≠ "like") (h : s.gifs.get? s.idx = some g) :
    handleVote kind s = { s with disliked := s.disliked ++ [g], idx := s.idx + 1 } := by
  unfold handleVote
  rw [h]
  simp [hk]

/-- Witness for C10: the capitalized kind "Like" sends the current card to
the disliked list. -/
theorem vote_default_dislike_witness :
    ("Like" ≠ "like") ∧
      handleVote "Like" sampleState =
        { sampleState with disliked := sampleState.disliked ++ [sampleGif],
                           idx := sampleState.idx + 1 } :=
  ⟨by decide, vote_default_dislike sampleState "Like" sampleGif (by decide) (by decide)⟩

/-- The reachable-state invariant behind claim C5: the pointer never passes
the end of the deck, and the two vote lists together hold, as a multiset,
exactly the consumed front `gifs.take idx` of the deck — each consumed deck
position contributes its item to exactly one of the two lists. -/
def DeckInv (s : GifferState) : Prop :=
  s.idx ≤ s.gifs.length ∧ (s.liked ++ s.disliked).Perm (s.gifs.take s.idx)

/-- Unfolding `handleVote` when a current item exists. -/
theorem handleVote_eq_of_get (s : GifferState) (kind : String) (g : GifItem)
    (h : s.gifs.get? s.idx = some g) :
    handleVote kind s =
      if kind = "like" then { s with liked := s.liked ++ [g], idx := s.idx + 1 }
      else { s with disliked := s.disliked ++ [g], idx := s.idx + 1 } := by
  unfold handleVote
  rw [h]
  by_cases hk : kind = "like" <;> simp [hk]

/-- Unfolding `handleVote` when the deck is exhausted. -/
theorem handleVote_eq_of_none (s : GifferState) (kind : String)
    (h : s.gifs.get? s.idx = none) : handleVote kind s = s := by
  unfold handleVote
  rw [h]

/-- One vote preserves the deck invariant. -/
theorem handleVote_inv (kind : String) (s : GifferState) (h : DeckInv s) :
    DeckInv (handleVote kind s) := by
  obtain ⟨hle, hperm⟩ := h
  cases hg : s.gifs.get? s.idx with
  | none =>
      rw [handleVote_eq_of_none s kind hg]
      exact ⟨hle, hperm⟩
  | some g =>
    have hlt : s.idx < s.gifs.length := by
      rcases Nat.lt_or_ge s.idx s.gifs.length with hcase | hcase
      · exact hcase
      · rw [List.get?_eq_none.mpr hcase] at hg
        cases hg
    have hg2 : s.gifs[s.idx]? = some g := by
      rw [← List.get?_eq_getElem?]
      exact hg
    have htake : s.gifs.take (s.idx + 1) = s.gifs.take s.idx ++ [g] := by
      rw [List.take_succ, hg2]
      rfl
    rw [handleVote_eq_of_get s kind g hg]
    by_cases hk : kind = "like"
    · rw [if_pos hk]
      refine ⟨Nat.succ_le_of_lt hlt, ?_⟩
      show ((s.liked ++ [g]) ++ s.disliked).Perm (s.gifs.take (s.idx + 1))
      rw [htake, List.append_assoc]
      refine List.Perm.trans (List.Perm.append_left s.liked List.perm_append_comm) ?_
      rw [← List.append_assoc]
      exact hperm.append_right [g]
    · rw [if_neg hk]
      refine ⟨Nat.succ_le_of_lt hlt, ?_⟩
      show (s.liked ++ (s.disliked ++ [g])).Perm (s.gifs.take (s.idx + 1))
      rw [htake, ← List.append_assoc]
      exact hperm.append_right [g]

/-- A whole sequence of votes preserves the deck invariant. -/
theorem applyVotes_inv (kinds : List String) (s : GifferState) (h : DeckInv s) :
    DeckInv (applyVotes kinds s) := by
  induction kinds generalizing s with
  | nil => exact h
  | cons k ks ih =>
      have h1 := handleVote_inv k s h
      simpa [applyVotes, List.foldl_cons] using ih (handleVote k s) h1

/-- The state reached by applying a successful fetch resolution and then an
arbitrary sequence of vote clicks. -/
def postFetchVotes (s : GifferState) (status : Nat) (body : ResponseBody)
    (kinds : List String) : GifferState :=
  applyVotes kinds (fetchDeckResolve false (.response true status body) s)

/-- Claim C5: after a successful fetch, for every sequence of votes the liked
and disliked lists are position-disjoint (together they never hold more
copies of an item than the deck itself does, so an item occurring once in the
deck is never in both) and the sum of their lengths never exceeds the deck
length. -/
theorem votes_disjoint_and_bounded (s : GifferState) (status : Nat)
    (body : ResponseBody) (kinds : List String) :
    (∀ x : GifItem,
        (postFetchVotes s status body kinds).liked.count x
            + (postFetchVotes s status body kinds).disliked.count x
          ≤ (postFetchVotes s status body kinds).gifs.count x) ∧
      (postFetchVotes s status body kinds).liked.length
          + (postFetchVotes s status body kinds).disliked.length
        ≤ (postFetchVotes s status body kinds).gifs.length := by
  have h0 : DeckInv (fetchDeckResolve false (.response true status body) s) := by
    unfold DeckInv fetchDeckResolve
    simp
  obtain ⟨hle, hperm⟩ :=
    applyVotes_inv kinds (fetchDeckResolve false (.response true status body) s) h0
  refine ⟨fun x => ?_, ?_⟩
  · unfold postFetchVotes
    rw [← List.count_append, hperm.count_eq x]
    exact List.Sublist.count_le (List.take_sublist _ _) x
  · unfold postFetchVotes
    have hlen := hperm.length_eq
    rw [List.length_append] at hlen
    rw [hlen, List.length_take]
    exact Nat.min_le_right _ _

/-- A raw record with no `images` object and no title: the code's preview
chain `d.images?.downsized_medium?.url || ... || d.images?.downsized?.url`
evaluates to `undefined` for it. -/
def noImageRecord : RawRecord :=
  { id := some "abc", title := none, images := none, url := none }

/-- A parsed response body whose single record has no image variants. -/
def noImageBody : ResponseBody :=
  { data := some [noImageRecord] }

/-- Counterexample for C6: on a record with no image variants the normalized
GifItem's preview field is undefined (`none`), not a string, refuting the
claim that every produced preview URL is a string. -/
theorem preview_not_always_string :
    ¬ (∀ g ∈ normalizeResponse noImageBody, g.preview.isSome = true) := by
  decide

/-- The normalization contract written from the spec side: the preview is the
first non-empty candidate URL in the order medium-downsized, original,
downsized when one exists, and otherwise whatever the downsized chain gave
(possibly empty or absent); the title is the record's title when that is a
non-empty string and "Untitled" otherwise. -/
def specMapRecord (d : RawRecord) : GifItem :=
  { id := d.id
    title :=
      match d.title with
      | some s => if s != "" then s else "Untitled"
      | none => "Untitled"
    preview :=
      match List.find? truthyStr [dmUrl d, origUrl d, dsUrl d] with
      | some v => v
      | none => dsUrl d
    url := d.url }

/-- The code's `a || b || c` preview chain picks the first truthy candidate,
falling back to the last candidate when none is truthy. -/
theorem jsOr_chain_eq_find (a b c : Option String) :
    jsOr a (jsOr b c) =
      match List.find? truthyStr [a, b, c] with
      | some v => v
      | none => c := by
  cases ha : truthyStr a <;> cases hb : truthyStr b <;> cases hc : truthyStr c <;>
    simp [jsOr, List.find?, ha, hb, hc]

/-- The record mapping of the code coincides with the spec-side contract. -/
theorem mapRecord_eq_spec (d : RawRecord) : mapRecord d = specMapRecord d := by
  unfold mapRecord specMapRecord
  rw [jsOr_chain_eq_find]

/-- Claim C6 (amended): normalization extracts the `data` array (the empty
list when the field is absent) and maps each record, in response order and
one GifItem per record, through the spec-side contract `specMapRecord`: the
preview is the first non-empty image variant in the order medium-downsized,
original, downsized when one exists and otherwise the downsized chain's value
— which may be absent (`undefined`) rather than a string — and the title
falls back to "Untitled" when the record's title is absent or empty. -/
theorem normalizeResponse_contract (body : ResponseBody) :
    normalizeResponse body = (body.data.getD []).map specMapRecord ∧
      normalizeResponse { data := none } = [] := by
  constructor
  · unfold normalizeResponse
    rw [funext mapRecord_eq_spec]
  · rfl

/-- Claim C8: whenever the endpoint prop is not a non-empty string (empty
string or a non-string value), the effect body sets the error to a message
beginning "Invalid endpoint" and starts no fetch; deck, pointer, both vote
lists and the loading flag keep their previous values. -/
theorem invalid_endpoint_no_fetch (p : PropValue) (s : GifferState)
    (h : endpointInvalid p = true) :
    effectRun p s = ({ s with error := invalidEndpointMsg }, false) ∧
      ∃ rest, invalidEndpointMsg = "Invalid endpoint" ++ rest := by
  refine ⟨by simp [effectRun, h], ": Pass a full Giphy URL as the `apiKey` prop.", ?_⟩
  rfl

/-- Witness for C8: the empty-string endpoint is invalid and only the error
string changes. -/
theorem invalid_endpoint_no_fetch_witness :
    endpointInvalid (PropValue.str "") = true ∧
      (effectRun (PropValue.str "") sampleState =
          ({ sampleState with error := invalidEndpointMsg }, false) ∧
        ∃ rest, invalidEndpointMsg = "Invalid endpoint" ++ rest) :=
  ⟨by decide, invalid_endpoint_no_fetch (PropValue.str "") sampleState (by decide)⟩

/-- Counterexample for C9: the limit input's change handler stores the raw
input string without validation, so after the single edit typing "0" the
stored limit denotes the integer 0, which is not ≥ 1. -/
theorem limit_not_always_ge_one :
    ¬ (∀ es : List AppEdit, ∃ n : Int,
        limitAsInt (applyAppEdits es initialAppState).limit = some n ∧ 1 ≤ n) := by
  intro h
  obtain ⟨n, hn, h1⟩ := h [AppEdit.editLimit "0"]
  rw [show limitAsInt (applyAppEdits [AppEdit.editLimit "0"] initialAppState).limit
        = some 0 by decide] at hn
  injection hn with h0
  rw [← h0] at h1
  exact absurd h1 (by decide)

/-- Claim C9 (amended): the result-count state starts as the number 12, and
after every sequence of edits ending in a limit edit it holds exactly the raw
string of that last edit — no validation makes it an integer ≥ 1. -/
theorem limit_holds_raw_edit (es : List AppEdit) (raw : String) :
    initialAppState.limit = LimitValue.num 12 ∧
      (applyAppEdits (es ++ [AppEdit.editLimit raw]) initialAppState).limit =
        LimitValue.str raw := by
  constructor
  · rfl
  · unfold applyAppEdits
    rw [List.foldl_append]
    rfl
